import Mathlib

/-!
Verification of the livetalk frontend chat client and of the spec's
context-compression contract, as a shallow embedding in Lean 4.

Sources embedded:
- `src/frontend/src/types/index.ts` — the `Message` record and the
  `WSMessage` tagged union of WebSocket events, plus the conversation
  store's `addMessage` / `updateLastMessage`.
- `src/frontend/src/components/Chat/ChatView.tsx` — `handleWSMessage`,
  `sendMessage`, `handleVoiceMessage` and the rendering conditions for
  the thinking indicator and the streaming bubble.
- `src/frontend/src/components/Voice/VoiceRecorder.tsx` — the
  `mediaRecorder.onstop` handler and `audioBufferToWav`.
- `src/unnamed/part_000` — `authService` token store.
- The ContextManager (backend `context_service.py`) is not part of the
  provided sources, so it is modelled from the spec (§4.1, §8).
-/

/-- `Message.role` values: `'user' | 'assistant' | 'system'`. -/
inductive Role where
  | user
  | assistant
  | system
deriving DecidableEq, Repr

/-- The `Message` record of `types/index.ts` (ids are JS numbers; the
streaming placeholder in ChatView uses `id: -1`, hence `Int`). -/
structure Message where
  id : Int
  conversation_id : Int
  role : Role
  content : String
  audio_path : Option String := none
  token_count : Int
  created_at : String
deriving DecidableEq, Repr

/-- `WSStatus.status` values: `'transcribing' | 'thinking' | 'synthesizing'`. -/
inductive WSStatusKind where
  | transcribing
  | thinking
  | synthesizing
deriving DecidableEq, Repr

/-- The `WSMessage` tagged union of `types/index.ts` (lines 56-100):
seven variants, one per `type` tag appearing in the union. -/
inductive WSMessage where
  | user_message (message : Message)
  | assistant_chunk (content : String)
  | assistant_complete (message : Message)
  | status (s : WSStatusKind)
  | transcription (text : String)
  | assistant_audio (audio : String) (format : String)
  | error (message : String)
deriving DecidableEq, Repr

/-- The `type` tag string of a `WSMessage` value, as serialized on the wire. -/
def wsKind : WSMessage → String
  | .user_message _ => "user_message"
  | .assistant_chunk _ => "assistant_chunk"
  | .assistant_complete _ => "assistant_complete"
  | .status _ => "status"
  | .transcription _ => "transcription"
  | .assistant_audio _ _ => "assistant_audio"
  | .error _ => "error"

/-- The outbound event kinds enumerated in the spec's external-interface
section (§6): `user_message`, `assistant_chunk`, `assistant_complete`,
`status`, `assistant_audio`, `error`. -/
def specEventKinds : List String :=
  ["user_message", "assistant_chunk", "assistant_complete",
   "status", "assistant_audio", "error"]

/-- The event kinds for which `handleWSMessage`'s `switch` has a `case`. -/
def handledKinds : List String :=
  ["user_message", "assistant_chunk", "assistant_complete", "error"]

/-- The ChatView component state that `handleWSMessage`, `sendMessage`
and `handleVoiceMessage` read and write: the `inputValue`, `isStreaming`
and `streamingContent` hooks, the store's `messages` list
(`addMessage` appends), whether `wsRef.current` is set, and a count of
`fetchConversations()` calls (its effect on the conversation list is
outside this state). -/
structure ClientState where
  inputValue : String
  isStreaming : Bool
  streamingContent : String
  messages : List Message
  wsConnected : Bool
  fetchConversationsCalls : Nat
deriving DecidableEq, Repr

/-- `handleWSMessage` of `ChatView.tsx` (lines 79-98): a `switch` on
`data.type` with cases for `user_message` (store `addMessage`),
`assistant_chunk` (append to `streamingContent`), `assistant_complete`
(clear streaming state, `addMessage`, `fetchConversations`) and `error`
(clear `isStreaming`); all other variants fall through the `switch`
unchanged (there is no `default` case). -/
def handleWSMessage (st : ClientState) : WSMessage → ClientState
  | .user_message m =>
      { st with messages := st.messages ++ [m] }
  | .assistant_chunk c =>
      { st with streamingContent := st.streamingContent ++ c }
  | .assistant_complete m =>
      { st with isStreaming := false
                streamingContent := ""
                messages := st.messages ++ [m]
                fetchConversationsCalls := st.fetchConversationsCalls + 1 }
  | .error _ =>
      { st with isStreaming := false }
  | .status _ => st
  | .transcription _ => st
  | .assistant_audio _ _ => st

/-- JS `String.prototype.trim()`: drops whitespace from both ends
(structurally recursive so that concrete values compute). -/
def jsTrim (s : String) : String :=
  String.mk
    (((s.data.dropWhile Char.isWhitespace).reverse.dropWhile
        Char.isWhitespace).reverse)

/-- `sendMessage` of `ChatView.tsx` (lines 105-114). Returns the new
state and the payload sent over the WebSocket, `none` when the guard
`!inputValue.trim() || !wsRef.current || isStreaming` returns early. -/
def sendMessage (st : ClientState) : ClientState × Option String :=
  if jsTrim st.inputValue = "" ∨ st.wsConnected = false ∨ st.isStreaming = true then
    (st, none)
  else
    ({ st with inputValue := ""
               isStreaming := true
               streamingContent := "" },
     some (jsTrim st.inputValue))

/-- `handleVoiceMessage` of `ChatView.tsx` (lines 123-129): guard
`!wsRef.current || isStreaming`, otherwise start streaming and send the
transcribed text. -/
def handleVoiceMessage (st : ClientState) (text : String) :
    ClientState × Option String :=
  if st.wsConnected = false ∨ st.isStreaming = true then
    (st, none)
  else
    ({ st with isStreaming := true, streamingContent := "" }, some text)

/-- The thinking/loading indicator of `ChatView.tsx` (lines 280-285):
rendered when `isStreaming && !streamingContent`. -/
def showsThinking (st : ClientState) : Bool :=
  st.isStreaming && st.streamingContent.isEmpty

/-- The streaming message bubble of `ChatView.tsx` (lines 265-277):
rendered when `isStreaming && streamingContent`. -/
def showsStreamingBubble (st : ClientState) : Bool :=
  st.isStreaming && !st.streamingContent.isEmpty

/-- Concatenation of a list of strings in order (JS `parts.join('')`). -/
def joinAll : List String → String
  | [] => ""
  | c :: cs => c ++ joinAll cs

/-- Processing a list of WebSocket events in arrival order. -/
def runEvents (st : ClientState) (evs : List WSMessage) : ClientState :=
  evs.foldl handleWSMessage st

/-- `addMessage` of the conversation store (`types/index.ts` lines
280-282): appends the message at the end of `messages`. -/
def addMessage (msgs : List Message) (m : Message) : List Message :=
  msgs ++ [m]

/-- `updateLastMessage` of the conversation store (`types/index.ts`
lines 284-295): when the list is non-empty and its last element has
role `'assistant'`, replaces that last element by a copy whose
`content` field is the argument; otherwise leaves the list as is. -/
def updateLastMessage (content : String) (msgs : List Message) :
    List Message :=
  match msgs.getLast? with
  | none => msgs
  | some lastMsg =>
      if lastMsg.role = Role.assistant then
        msgs.dropLast ++ [{ lastMsg with content := content }]
      else
        msgs

/-- `RecordingStatus` of `VoiceRecorder.tsx`. -/
inductive RecordingStatus where
  | idle
  | recording
  | processing
deriving DecidableEq, Repr

/-- Outcome of the `/api/voice/stt` request made in the recorder's
`onstop` handler: either the request failed (non-ok response or a
thrown error), or it returned JSON whose `text` field is absent
(`none`) or a string. -/
inductive SttResult where
  | httpFailure
  | ok (text : Option String)
deriving DecidableEq, Repr

/-- What the `onstop` handler did: the texts passed to the
`onTranscription` callback, the error message shown (if any), and the
final recorder status. -/
structure RecorderOutcome where
  transcriptionCalls : List String
  errorShown : Option String
  status : RecordingStatus
deriving DecidableEq, Repr

/-- The recorder's "no speech detected" error text. -/
def noSpeechError : String := "未检测到语音"

/-- The recorder's "speech recognition failed" error text. -/
def sttFailedError : String := "语音识别失败"

/-- The `mediaRecorder.onstop` handler of `VoiceRecorder.tsx` (lines
60-108), given the collected chunk sizes and the result of the STT
request: with no chunks it sets status idle and returns; on request
failure it shows the STT-failed error; on a response whose `text` is
absent, empty or whitespace-only (`data.text && data.text.trim()`
falsy) it shows the no-speech error; otherwise it calls
`onTranscription(data.text.trim())`. The `finally` block always sets
status back to idle. -/
def recorderOnStop (chunks : List Nat) (stt : SttResult) :
    RecorderOutcome :=
  if chunks.isEmpty then
    { transcriptionCalls := [], errorShown := none, status := .idle }
  else
    match stt with
    | .httpFailure =>
        { transcriptionCalls := [], errorShown := some sttFailedError,
          status := .idle }
    | .ok none =>
        { transcriptionCalls := [], errorShown := some noSpeechError,
          status := .idle }
    | .ok (some t) =>
        if t = "" ∨ jsTrim t = "" then
          { transcriptionCalls := [], errorShown := some noSpeechError,
            status := .idle }
        else
          { transcriptionCalls := [jsTrim t], errorShown := none,
            status := .idle }

/-- The browser `localStorage` slot holding the `'token'` key:
`none` models a missing key (`getItem` returns `null`). -/
def TokenStore := Option String

/-- `authService.setToken` (`src/unnamed/part_000`):
`localStorage.setItem('token', token)`. -/
def setToken (token : String) (_ : TokenStore) : TokenStore := some token

/-- `authService.logout`: `localStorage.removeItem('token')`. -/
def logout (_ : TokenStore) : TokenStore := none

/-- `authService.getToken`: `localStorage.getItem('token')`. -/
def getToken (s : TokenStore) : Option String := s

/-- `authService.isAuthenticated`: `!!this.getToken()` — JS string
truthiness, so `null` and the empty string are both falsy. -/
def isAuthenticated (s : TokenStore) : Bool :=
  match getToken s with
  | none => false
  | some t => !t.isEmpty

/-- Little-endian bytes of `DataView.setUint16` (the stored 16-bit
value is the argument mod 2^16). -/
def u16le (m : Nat) : List Nat :=
  [m % 256, m / 256 % 256]

/-- Little-endian bytes of `DataView.setUint32` (the stored 32-bit
value is the argument mod 2^32). -/
def u32le (m : Nat) : List Nat :=
  [m % 256, m / 256 % 256, m / 65536 % 256, m / 16777216 % 256]

/-- Little-endian bytes of `DataView.setInt16`: two's-complement
16-bit wrap of the (already integral) value. -/
def i16le (v : Int) : List Nat :=
  u16le (v % 65536).toNat

/-- JS number-to-integer conversion applied by `setInt16`: truncation
toward zero. Samples are modelled as rationals. -/
def ratTrunc (q : ℚ) : Int :=
  if 0 ≤ q then ⌊q⌋ else ⌈q⌉

/-- The per-sample encoding of `audioBufferToWav` (lines 250-253):
`const sample = Math.max(-1, Math.min(1, data[i]))` then
`view.setInt16(offset, sample < 0 ? sample * 0x8000 : sample * 0x7fff)`. -/
def encodeSample (x : ℚ) : Int :=
  let sample := max (-1) (min 1 x)
  if sample < 0 then ratTrunc (sample * 32768) else ratTrunc (sample * 32767)

/-- The 44-byte WAV header written by `audioBufferToWav` (lines
233-246) for mono 16-bit PCM, where `n` is `dataLength` (bytes of
sample data) and `r` the sample rate, one list element per byte
offset: `'RIFF'` at 0, total length minus 8 at 4, `'WAVE'` at 8,
`'fmt '` at 12, 16 at 16, format 1 at 20, 1 channel at 22, sample
rate at 24, byte rate `r * 1 * 2` at 28, block align 2 at 32, bit
depth 16 at 34, `'data'` at 36, `dataLength` at 40. -/
def wavHeader (n r : Nat) : List Nat :=
  [82, 73, 70, 70,
   (36 + n) % 256, (36 + n) / 256 % 256,
   (36 + n) / 65536 % 256, (36 + n) / 16777216 % 256,
   87, 65, 86, 69,
   102, 109, 116, 32,
   16, 0, 0, 0,
   1, 0,
   1, 0,
   r % 256, r / 256 % 256, r / 65536 % 256, r / 16777216 % 256,
   (r * 1 * 2) % 256, (r * 1 * 2) / 256 % 256,
   (r * 1 * 2) / 65536 % 256, (r * 1 * 2) / 16777216 % 256,
   2, 0,
   16, 0,
   100, 97, 116, 97,
   n % 256, n / 256 % 256, n / 65536 % 256, n / 16777216 % 256]

/-- The header is the `'RIFF'`/`'WAVE'`/`'fmt '`/`'data'` block
structure of the source's sequence of `DataView` writes. -/
theorem wavHeader_blocks (n r : Nat) :
    wavHeader n r
      = [82, 73, 70, 70] ++ u32le (36 + n) ++
        [87, 65, 86, 69] ++
        [102, 109, 116, 32] ++ u32le 16 ++ u16le 1 ++ u16le 1 ++
        u32le r ++ u32le (r * 1 * 2) ++ u16le 2 ++ u16le 16 ++
        [100, 97, 116, 97] ++ u32le n := by
  simp [wavHeader, u32le, u16le]

/-- `audioBufferToWav` (lines 219-257) on the mono channel data: the
44-byte header followed by each sample clamped, scaled and stored as a
little-endian signed 16-bit integer. -/
def audioBufferToWav (data : List ℚ) (sampleRate : Nat) : List Nat :=
  wavHeader (data.length * 2) sampleRate ++
  data.flatMap (fun x => i16le (encodeSample x))

/-- Reading an unsigned little-endian 32-bit value from a byte list at
an offset (out-of-range bytes read as 0). -/
def readU32le (bs : List Nat) (off : Nat) : Nat :=
  bs.getD off 0 + 256 * bs.getD (off + 1) 0 +
  65536 * bs.getD (off + 2) 0 + 16777216 * bs.getD (off + 3) 0

/-- Modelled from the spec: a `Turn` of the ContextManager (§3) — the
backend `context_service.py` is not among the provided sources. Only
the fields compression depends on are carried. -/
structure Turn where
  role : Role
  content : String
deriving DecidableEq, Repr

/-- Modelled from the spec: a `ContextWindow` (§3) — ordered turns plus
an optional `contextSummary` that logically precedes all retained
turns. -/
structure ContextWindow where
  contextSummary : Option String
  turns : List Turn
deriving DecidableEq, Repr

/-- Modelled from the spec: ContextManager configuration (§4.1, §6) —
`maxTokens`, `compressionThreshold`, retained-turn count `K`. -/
structure ContextConfig where
  maxTokens : Nat
  compressionThreshold : ℚ
  K : Nat
deriving DecidableEq, Repr

/-- The configuration of the spec's testable property (§8):
`maxTokens=4096`, `threshold=0.8`, `K=4`. -/
def defaultConfig : ContextConfig :=
  { maxTokens := 4096, compressionThreshold := 8 / 10, K := 4 }

/-- Modelled from the spec: the "cheap deterministic estimator
(character-length-based approximation)" of §4.1 — the character count
of the text. It is monotone and stable for the same input. -/
def estimateText (s : String) : Nat := s.length

/-- Modelled from the spec: the estimate contributed by an optional
`contextSummary` (absent summaries contribute nothing). -/
def summaryTokens : Option String → Nat
  | none => 0
  | some s => estimateText s

/-- Modelled from the spec: `estimatedTokens(window)` — the running
estimate over the summary (if any) and all retained turns. -/
def estimatedTokens (w : ContextWindow) : Nat :=
  summaryTokens w.contextSummary +
  (w.turns.map (fun t => estimateText t.content)).sum

/-- Modelled from the spec: the threshold test of `maybeCompress()`
(§4.1): `estimatedTokens / maxTokens ≥ compressionThreshold`. -/
def shouldCompress (cfg : ContextConfig) (w : ContextWindow) : Bool :=
  decide (cfg.compressionThreshold ≤ (estimatedTokens w : ℚ) / cfg.maxTokens)

/-- Modelled from the spec: `maybeCompress() -> bool` (§4.1) — when the
threshold test passes, folds the oldest contiguous run of turns (all
turns except the most recent `K`) together with the previous summary
into a single updated `contextSummary` produced by the summary-mode
completion call `summarize`, preserving the unfolded recent turns, and
returns whether compression occurred. -/
def maybeCompress (cfg : ContextConfig)
    (summarize : Option String → List Turn → String)
    (w : ContextWindow) : Bool × ContextWindow :=
  if shouldCompress cfg w then
    let folded := w.turns.take (w.turns.length - cfg.K)
    let retained := w.turns.drop (w.turns.length - cfg.K)
    (true,
     { contextSummary := some (summarize w.contextSummary folded),
       turns := retained })
  else
    (false, w)

/-! ## Helper lemmas -/

/-- Folding chunk events appends their joined contents to the partial text. -/
theorem streamingContent_foldl_chunks (chunks : List String) (st : ClientState) :
    (chunks.foldl (fun s c => handleWSMessage s (WSMessage.assistant_chunk c))
      st).streamingContent = st.streamingContent ++ joinAll chunks := by
  induction chunks generalizing st with
  | nil => simp [joinAll]
  | cons c cs ih =>
      simp only [List.foldl_cons, joinAll]
      rw [ih]
      simp [handleWSMessage, String.append_assoc]

/-- Every branch of `handleWSMessage` keeps a cleared streaming flag cleared. -/
theorem handleWSMessage_preserves_not_streaming (st : ClientState)
    (m : WSMessage) (h : st.isStreaming = false) :
    (handleWSMessage st m).isStreaming = false := by
  cases m <;> simp [handleWSMessage, h]

/-- Processing any event sequence keeps a cleared streaming flag cleared. -/
theorem runEvents_preserves_not_streaming (evs : List WSMessage)
    (st : ClientState) (h : st.isStreaming = false) :
    (runEvents st evs).isStreaming = false := by
  induction evs generalizing st with
  | nil => exact h
  | cons e es ih =>
      exact ih _ (handleWSMessage_preserves_not_streaming st e h)

/-! ## Claim theorems -/

/-- C2: in every client state with the streaming flag set, a second
submission by the text path (`sendMessage`) or the voice path
(`handleVoiceMessage`) is rejected: nothing is sent over the WebSocket
and the state — streaming flag, accumulated partial content and all —
is unchanged. -/
theorem busy_rejects_second_submission (st : ClientState) (t : String)
    (h : st.isStreaming = true) :
    sendMessage st = (st, none) ∧ handleVoiceMessage st t = (st, none) := by
  constructor <;> simp [sendMessage, handleVoiceMessage, h]

/-- A concrete mid-turn state: a turn is streaming with partial content. -/
def busyDemoState : ClientState :=
  { inputValue := "next question", isStreaming := true,
    streamingContent := "partial answer", messages := [],
    wsConnected := true, fetchConversationsCalls := 0 }

/-- Witness for C2 at a concrete mid-turn state. -/
theorem busy_rejects_second_submission_witness :
    busyDemoState.isStreaming = true
    ∧ (sendMessage busyDemoState = (busyDemoState, none)
       ∧ handleVoiceMessage busyDemoState "voice text" = (busyDemoState, none)) :=
  ⟨rfl, busy_rejects_second_submission busyDemoState "voice text" rfl⟩

/-- C3: each `assistant_chunk` is applied to the partial content
immediately on arrival (a single event appends exactly its `content`),
and after any finite sequence of chunk events the partial content
equals the prior content followed by the concatenation of all chunk
contents in arrival order; from the start of a turn (empty partial
content) it is exactly that concatenation. -/
theorem assistant_chunks_concatenate (st : ClientState) (c : String)
    (chunks : List String) :
    handleWSMessage st (WSMessage.assistant_chunk c)
      = { st with streamingContent := st.streamingContent ++ c }
    ∧ (runEvents st (chunks.map WSMessage.assistant_chunk)).streamingContent
      = st.streamingContent ++ joinAll chunks
    ∧ (runEvents { st with streamingContent := "" }
        (chunks.map WSMessage.assistant_chunk)).streamingContent
      = joinAll chunks := by
  refine ⟨rfl, ?_, ?_⟩
  · rw [runEvents, List.foldl_map]
    exact streamingContent_foldl_chunks chunks st
  · rw [runEvents, List.foldl_map]
    rw [streamingContent_foldl_chunks chunks { st with streamingContent := "" }]
    simp

/-- C4: on `assistant_complete` the carried message is appended exactly
once at the end of the message list (via the store's `addMessage`), the
streaming flag is cleared and the partial content emptied; the list
grows by exactly one element, so the accumulated chunks are never added
as a separate message. -/
theorem assistant_complete_appends_once (st : ClientState) (m : Message) :
    (handleWSMessage st (WSMessage.assistant_complete m)).messages
      = addMessage st.messages m
    ∧ (handleWSMessage st (WSMessage.assistant_complete m)).messages
      = st.messages ++ [m]
    ∧ (handleWSMessage st (WSMessage.assistant_complete m)).messages.length
      = st.messages.length + 1
    ∧ (handleWSMessage st (WSMessage.assistant_complete m)).isStreaming = false
    ∧ (handleWSMessage st (WSMessage.assistant_complete m)).streamingContent
      = "" := by
  refine ⟨rfl, rfl, ?_, rfl, rfl⟩
  simp [handleWSMessage]

/-- C5: after an `error` event the streaming flag is cleared, and no
further WebSocket event sequence can re-set it (only a new submission
can), so in every state reachable after an error neither the thinking
indicator nor the streaming bubble is rendered. -/
theorem error_never_leaves_thinking (st : ClientState) (em : String)
    (evs : List WSMessage) :
    (runEvents (handleWSMessage st (WSMessage.error em)) evs).isStreaming = false
    ∧ showsThinking (runEvents (handleWSMessage st (WSMessage.error em)) evs)
      = false
    ∧ showsStreamingBubble
        (runEvents (handleWSMessage st (WSMessage.error em)) evs) = false := by
  have h0 : (handleWSMessage st (WSMessage.error em)).isStreaming = false := rfl
  have h := runEvents_preserves_not_streaming evs _ h0
  exact ⟨h, by simp [showsThinking, h], by simp [showsStreamingBubble, h]⟩

/-- A concrete message used to exhibit each event kind. -/
def demoMessage : Message :=
  { id := 1, conversation_id := 1, role := Role.assistant,
    content := "hello", token_count := 2, created_at := "2025-01-01" }

/-- C1 counterexample: the code's `WSMessage` union carries a
`transcription` variant whose tag is not among the six outbound event
kinds enumerated in the spec's §6, so the union does not have exactly
one constructor per listed kind. -/
theorem wsmessage_extra_transcription_variant :
    wsKind (WSMessage.transcription "你好") = "transcription"
    ∧ "transcription" ∉ specEventKinds := by
  exact ⟨rfl, by decide⟩

/-- C1 amended: every constructor's tag is either one of the six
spec-listed kinds or the extra `transcription`; each listed kind is
realized by exactly one constructor; and the client handler is total
but not an exhaustive match — `status`, `transcription` and
`assistant_audio` values fall through the `switch` leaving the state
unchanged, every value either having an explicit `case` or being such a
no-op. -/
theorem wsmessage_union_and_handler_amended :
    (∀ m : WSMessage, wsKind m ∈ specEventKinds ∨ wsKind m = "transcription")
    ∧ (wsKind (WSMessage.user_message demoMessage) = "user_message"
       ∧ wsKind (WSMessage.assistant_chunk "c") = "assistant_chunk"
       ∧ wsKind (WSMessage.assistant_complete demoMessage) = "assistant_complete"
       ∧ wsKind (WSMessage.status WSStatusKind.thinking) = "status"
       ∧ wsKind (WSMessage.assistant_audio "a" "wav") = "assistant_audio"
       ∧ wsKind (WSMessage.error "e") = "error")
    ∧ (∀ st : ClientState, ∀ k : WSStatusKind,
         handleWSMessage st (WSMessage.status k) = st)
    ∧ (∀ st : ClientState, ∀ t : String,
         handleWSMessage st (WSMessage.transcription t) = st)
    ∧ (∀ st : ClientState, ∀ a f : String,
         handleWSMessage st (WSMessage.assistant_audio a f) = st)
    ∧ (∀ st : ClientState, ∀ m : WSMessage,
         wsKind m ∈ handledKinds ∨ handleWSMessage st m = st) := by
  refine ⟨?_, ⟨rfl, rfl, rfl, rfl, rfl, rfl⟩, ?_, ?_, ?_, ?_⟩
  · intro m
    cases m with
    | user_message m => exact Or.inl (show "user_message" ∈ specEventKinds by decide)
    | assistant_chunk c => exact Or.inl (show "assistant_chunk" ∈ specEventKinds by decide)
    | assistant_complete m => exact Or.inl (show "assistant_complete" ∈ specEventKinds by decide)
    | status k => exact Or.inl (show "status" ∈ specEventKinds by decide)
    | transcription t => exact Or.inr rfl
    | assistant_audio a f => exact Or.inl (show "assistant_audio" ∈ specEventKinds by decide)
    | error e => exact Or.inl (show "error" ∈ specEventKinds by decide)
  · intro st k; rfl
  · intro st t; rfl
  · intro st a f; rfl
  · intro st m
    cases m with
    | user_message m => exact Or.inl (show "user_message" ∈ handledKinds by decide)
    | assistant_chunk c => exact Or.inl (show "assistant_chunk" ∈ handledKinds by decide)
    | assistant_complete m => exact Or.inl (show "assistant_complete" ∈ handledKinds by decide)
    | status k => exact Or.inr rfl
    | transcription t => exact Or.inr rfl
    | assistant_audio a f => exact Or.inr rfl
    | error e => exact Or.inl (show "error" ∈ handledKinds by decide)

/-- C6 counterexample: a recording that produced no audio chunks makes
the `onstop` handler return to idle silently — no empty-transcription
error is reported to the user, contrary to the claim. -/
theorem no_chunks_reports_no_error :
    (recorderOnStop [] (SttResult.ok (some "你好"))).errorShown = none
    ∧ (recorderOnStop [] (SttResult.ok (some "你好"))).transcriptionCalls
      = [] :=
  ⟨rfl, rfl⟩

/-- C6 amended: the handler always returns the recorder to idle; a
recording whose STT result has an absent, empty or whitespace-only
text never invokes the transcription callback and shows the no-speech
error; but a recording with no audio chunks aborts silently — callback
not invoked, idle, and no error shown. -/
theorem empty_transcription_aborts (chunks : List Nat) (stt : SttResult)
    (c : Nat) (cs : List Nat) (t : String) (h : jsTrim t = "") :
    (recorderOnStop chunks stt).status = RecordingStatus.idle
    ∧ recorderOnStop (c :: cs) (SttResult.ok none)
      = { transcriptionCalls := [], errorShown := some noSpeechError,
          status := RecordingStatus.idle }
    ∧ recorderOnStop (c :: cs) (SttResult.ok (some t))
      = { transcriptionCalls := [], errorShown := some noSpeechError,
          status := RecordingStatus.idle }
    ∧ recorderOnStop [] stt
      = { transcriptionCalls := [], errorShown := none,
          status := RecordingStatus.idle } := by
  refine ⟨?_, rfl, ?_, rfl⟩
  · cases chunks with
    | nil => rfl
    | cons a as =>
        cases stt with
        | httpFailure => rfl
        | ok o =>
            cases o with
            | none => rfl
            | some s =>
                simp only [recorderOnStop, List.isEmpty_cons, if_false,
                  Bool.false_eq_true]
                split <;> rfl
  · simp [recorderOnStop, h]

/-- Witness for C6 at a whitespace-only transcription. -/
theorem empty_transcription_aborts_witness :
    jsTrim "  " = ""
    ∧ ((recorderOnStop [1] SttResult.httpFailure).status
        = RecordingStatus.idle
       ∧ recorderOnStop (1 :: []) (SttResult.ok none)
         = { transcriptionCalls := [], errorShown := some noSpeechError,
             status := RecordingStatus.idle }
       ∧ recorderOnStop (1 :: []) (SttResult.ok (some "  "))
         = { transcriptionCalls := [], errorShown := some noSpeechError,
             status := RecordingStatus.idle }
       ∧ recorderOnStop [] SttResult.httpFailure
         = { transcriptionCalls := [], errorShown := none,
             status := RecordingStatus.idle }) :=
  ⟨by decide, empty_transcription_aborts [1] SttResult.httpFailure 1 [] "  " (by decide)⟩

/-- C8 counterexample: after `setToken("")` the store holds the empty
string, so `getToken()` returns it but `isAuthenticated()` — JS
`!!getToken()` — is `false`, contradicting "after setToken(t) ...
isAuthenticated() returns true" for every token string. -/
theorem setToken_empty_not_authenticated :
    getToken (setToken "" (none : TokenStore)) = some ""
    ∧ isAuthenticated (setToken "" (none : TokenStore)) = false :=
  ⟨rfl, rfl⟩

/-- C8 amended: for every token `t`, `setToken(t)` makes `getToken()`
return `t`, and `isAuthenticated()` is then true exactly when `t` is
non-empty; after `logout()`, `getToken()` is null and
`isAuthenticated()` false; and in every state `isAuthenticated()` is
true iff `getToken()` returns a non-null, non-empty string. -/
theorem token_store_roundtrip (s : TokenStore) (t : String) :
    getToken (setToken t s) = some t
    ∧ (isAuthenticated (setToken t s) = true ↔ t ≠ "")
    ∧ getToken (logout s) = none
    ∧ isAuthenticated (logout s) = false
    ∧ (isAuthenticated s = true ↔ ∃ u, getToken s = some u ∧ u ≠ "") := by
  refine ⟨rfl, ?_, rfl, rfl, ?_⟩
  · show (!t.isEmpty) = true ↔ t ≠ ""
    rw [Bool.not_eq_true', Bool.eq_false_iff]
    exact not_congr (String.isEmpty_iff t)
  · cases s with
    | none => simp [isAuthenticated, getToken]
    | some v =>
        show (!v.isEmpty) = true ↔ _
        rw [Bool.not_eq_true', Bool.eq_false_iff]
        simp [getToken, not_congr (String.isEmpty_iff v)]

/-- C9: `updateLastMessage` preserves the list length and every element
but the last; the last element, when present, is replaced by a copy
differing at most in `content` and only when its role is `assistant`,
otherwise kept as is; the empty list is unchanged. Since a list is
determined by `dropLast` and `getLast?`, these conjuncts also give that
a non-assistant last message leaves the list entirely unchanged. -/
theorem updateLastMessage_frame (c : String) (msgs : List Message) :
    (updateLastMessage c msgs).length = msgs.length
    ∧ (updateLastMessage c msgs).dropLast = msgs.dropLast
    ∧ (updateLastMessage c msgs).getLast?
      = msgs.getLast?.map (fun lastMsg =>
          if lastMsg.role = Role.assistant then
            { lastMsg with content := c }
          else lastMsg)
    ∧ updateLastMessage c [] = [] := by
  induction msgs using List.reverseRecOn with
  | nil => exact ⟨rfl, rfl, rfl, rfl⟩
  | append_singleton l a ih =>
      by_cases h : a.role = Role.assistant <;>
        simp [updateLastMessage, h, List.getLast?_concat,
          List.dropLast_concat]

/-- Splitting the turn-token sum at a take/drop boundary. -/
theorem turnTokens_take_drop (l : List Turn) (n : Nat) :
    (l.map (fun t => estimateText t.content)).sum
      = ((l.take n).map (fun t => estimateText t.content)).sum
        + ((l.drop n).map (fun t => estimateText t.content)).sum := by
  conv_lhs => rw [← List.take_append_drop n l]
  rw [List.map_append, List.sum_append]

/-- The default-configuration threshold test passes exactly on windows
estimated at 3277 tokens or more. -/
theorem shouldCompress_default (w : ContextWindow)
    (hest : 3277 ≤ estimatedTokens w) :
    shouldCompress defaultConfig w = true := by
  unfold shouldCompress defaultConfig
  rw [decide_eq_true_eq]
  have h1 : (3277 : ℚ) ≤ (estimatedTokens w : ℚ) := by exact_mod_cast hest
  rw [show ((({ maxTokens := 4096, compressionThreshold := 8 / 10, K := 4 } :
      ContextConfig).maxTokens : Nat) : ℚ) = 4096 by norm_num]
  rw [le_div_iff₀ (by norm_num : (0:ℚ) < 4096)]
  linarith

/-- C7 (ContextManager modelled from the spec): with `maxTokens=4096`,
`threshold=0.8`, `K=4`, on any window estimated at ≥ 3277 tokens,
`maybeCompress` reports compression, replaces all turns but the 4 most
recent with the single updated summary produced by the summary-mode
completion call, keeps exactly those 4 most recent turns, and — the
summary being no larger than what it replaces — does not increase the
estimated token count; on every window its boolean result is exactly
whether the threshold test passed, i.e. whether compression occurred. -/
theorem maybeCompress_spec (w : ContextWindow)
    (summarize : Option String → List Turn → String)
    (hest : 3277 ≤ estimatedTokens w)
    (hsum : ∀ s ts, estimateText (summarize s ts)
        ≤ summaryTokens s + (ts.map (fun t => estimateText t.content)).sum) :
    (maybeCompress defaultConfig summarize w).fst = true
    ∧ (maybeCompress defaultConfig summarize w).snd.turns
      = w.turns.drop (w.turns.length - 4)
    ∧ (maybeCompress defaultConfig summarize w).snd.contextSummary
      = some (summarize w.contextSummary
          (w.turns.take (w.turns.length - 4)))
    ∧ estimatedTokens (maybeCompress defaultConfig summarize w).snd
      ≤ estimatedTokens w
    ∧ ∀ v : ContextWindow,
        (maybeCompress defaultConfig summarize v).fst
          = shouldCompress defaultConfig v := by
  have hsc := shouldCompress_default w hest
  have hK : defaultConfig.K = 4 := rfl
  refine ⟨?_, ?_, ?_, ?_, ?_⟩
  · simp [maybeCompress, hsc]
  · simp [maybeCompress, hsc, hK]
  · simp [maybeCompress, hsc, hK]
  · have hrw : (maybeCompress defaultConfig summarize w).snd
        = { contextSummary := some (summarize w.contextSummary
              (w.turns.take (w.turns.length - 4))),
            turns := w.turns.drop (w.turns.length - 4) } := by
      simp [maybeCompress, hsc, hK]
    rw [hrw]
    unfold estimatedTokens
    dsimp only
    have hb := hsum w.contextSummary (w.turns.take (w.turns.length - 4))
    have hsplit := turnTokens_take_drop w.turns (w.turns.length - 4)
    rw [show summaryTokens (some (summarize w.contextSummary
      (w.turns.take (w.turns.length - 4))))
      = estimateText (summarize w.contextSummary
          (w.turns.take (w.turns.length - 4))) from rfl]
    omega
  · intro v
    cases hv : shouldCompress defaultConfig v <;> simp [maybeCompress, hv]

/-- A 100-character turn for the compression witness. -/
def longTurn : Turn :=
  { role := Role.user, content := String.mk (List.replicate 100 'a') }

/-- A 33-turn window estimated at 3300 tokens, over the 3277 line. -/
def demoWindow : ContextWindow :=
  { contextSummary := none, turns := List.replicate 33 longTurn }

/-- Witness for C7 at the concrete over-threshold window, with the
summary-mode completion call returning the empty summary. -/
theorem maybeCompress_spec_witness :
    3277 ≤ estimatedTokens demoWindow
    ∧ ((maybeCompress defaultConfig (fun _ _ => "") demoWindow).fst = true
       ∧ (maybeCompress defaultConfig (fun _ _ => "") demoWindow).snd.turns
         = demoWindow.turns.drop (demoWindow.turns.length - 4)
       ∧ (maybeCompress defaultConfig (fun _ _ => "") demoWindow).snd.contextSummary
         = some ((fun (_ : Option String) (_ : List Turn) => "")
             demoWindow.contextSummary
             (demoWindow.turns.take (demoWindow.turns.length - 4)))
       ∧ estimatedTokens
           (maybeCompress defaultConfig (fun _ _ => "") demoWindow).snd
         ≤ estimatedTokens demoWindow
       ∧ ∀ v : ContextWindow,
           (maybeCompress defaultConfig (fun _ _ => "") v).fst
             = shouldCompress defaultConfig v) :=
  ⟨by decide,
   maybeCompress_spec demoWindow (fun _ _ => "") (by decide)
     (fun s ts => Nat.zero_le _)⟩

/-- The WAV header is 44 bytes for any data length and sample rate. -/
theorem wavHeader_length (n r : Nat) : (wavHeader n r).length = 44 := rfl

/-- Each encoded sample contributes exactly two bytes. -/
theorem flatMap_i16le_length (data : List ℚ) :
    (data.flatMap (fun x => i16le (encodeSample x))).length
      = 2 * data.length := by
  induction data with
  | nil => rfl
  | cons x xs ih =>
      simp only [List.flatMap_cons, List.length_append, ih]
      show 2 + 2 * xs.length = 2 * (xs.length + 1)
      omega

/-- Clamp-then-scale encoding lands in the signed 16-bit range. -/
theorem encodeSample_range (x : ℚ) :
    -32768 ≤ encodeSample x ∧ encodeSample x ≤ 32767 := by
  unfold encodeSample ratTrunc
  have h1 : (-1 : ℚ) ≤ max (-1) (min 1 x) := le_max_left _ _
  have h2 : max (-1 : ℚ) (min 1 x) ≤ 1 :=
    max_le (by norm_num) (min_le_left _ _)
  by_cases hneg : max (-1 : ℚ) (min 1 x) < 0
  · have hq : max (-1 : ℚ) (min 1 x) * 32768 < 0 :=
      mul_neg_of_neg_of_pos hneg (by norm_num)
    have hnot : ¬ (0 : ℚ) ≤ max (-1) (min 1 x) * 32768 := not_le.mpr hq
    simp only [hneg, if_pos, hnot, if_neg, if_false]
    constructor
    · have : (-32768 : ℚ) ≤ max (-1) (min 1 x) * 32768 := by nlinarith
      calc (-32768 : ℤ) = ⌈(-32768 : ℚ)⌉ := by
            rw [show ((-32768 : ℚ)) = ((-32768 : ℤ) : ℚ) by norm_num,
              Int.ceil_intCast]
        _ ≤ ⌈max (-1 : ℚ) (min 1 x) * 32768⌉ := Int.ceil_le_ceil this
    · have : ⌈max (-1 : ℚ) (min 1 x) * 32768⌉ ≤ 0 :=
        Int.ceil_le.mpr (by exact_mod_cast le_of_lt hq)
      omega
  · push_neg at hneg
    have hq : (0 : ℚ) ≤ max (-1) (min 1 x) * 32767 := by positivity
    have hlt : ¬ max (-1 : ℚ) (min 1 x) < 0 := not_lt.mpr hneg
    simp only [hlt, if_neg, hq, if_pos, if_false]
    constructor
    · have : (0 : ℤ) ≤ ⌊max (-1 : ℚ) (min 1 x) * 32767⌋ :=
        Int.le_floor.mpr (by exact_mod_cast hq)
      omega
    · have hle : max (-1 : ℚ) (min 1 x) * 32767 ≤ 32767 := by nlinarith
      calc ⌊max (-1 : ℚ) (min 1 x) * 32767⌋
          ≤ ⌊(32767 : ℚ)⌋ := Int.floor_le_floor hle
        _ = 32767 := by
            rw [show ((32767 : ℚ)) = ((32767 : ℤ) : ℚ) by norm_num,
              Int.floor_intCast]

/-- C10: on mono channel data of `n` samples, `audioBufferToWav`
produces exactly `44 + 2n` bytes; the little-endian 32-bit field at
offset 4 reads back `36 + 2n` (the RIFF total size) and the one at
offset 40 reads back `2n` (the data-chunk size), both exact below the
32-bit wrap; the bytes after the header are precisely each sample
clamped to `[-1, 1]` then scaled (`×0x8000` when negative, `×0x7fff`
otherwise) and stored as a little-endian signed 16-bit integer; and
every encoded value lies in `[-32768, 32767]`. -/
theorem audioBufferToWav_spec (data : List ℚ) (r : Nat)
    (h : 44 + 2 * data.length < 4294967296) :
    (audioBufferToWav data r).length = 44 + 2 * data.length
    ∧ readU32le (audioBufferToWav data r) 4 = 36 + 2 * data.length
    ∧ readU32le (audioBufferToWav data r) 40 = 2 * data.length
    ∧ (audioBufferToWav data r).drop 44
      = data.flatMap (fun x => i16le (encodeSample x))
    ∧ ∀ x : ℚ, -32768 ≤ encodeSample x ∧ encodeSample x ≤ 32767 := by
  refine ⟨?_, ?_, ?_, ?_, encodeSample_range⟩
  · rw [audioBufferToWav, List.length_append, wavHeader_length,
      flatMap_i16le_length]
  · have g0 : (audioBufferToWav data r).getD 4 0
        = (36 + data.length * 2) % 256 := rfl
    have g1 : (audioBufferToWav data r).getD (4 + 1) 0
        = (36 + data.length * 2) / 256 % 256 := rfl
    have g2 : (audioBufferToWav data r).getD (4 + 2) 0
        = (36 + data.length * 2) / 65536 % 256 := rfl
    have g3 : (audioBufferToWav data r).getD (4 + 3) 0
        = (36 + data.length * 2) / 16777216 % 256 := rfl
    unfold readU32le
    rw [g0, g1, g2, g3]
    omega
  · have g0 : (audioBufferToWav data r).getD 40 0
        = (data.length * 2) % 256 := rfl
    have g1 : (audioBufferToWav data r).getD (40 + 1) 0
        = (data.length * 2) / 256 % 256 := rfl
    have g2 : (audioBufferToWav data r).getD (40 + 2) 0
        = (data.length * 2) / 65536 % 256 := rfl
    have g3 : (audioBufferToWav data r).getD (40 + 3) 0
        = (data.length * 2) / 16777216 % 256 := rfl
    unfold readU32le
    rw [g0, g1, g2, g3]
    omega
  · show (wavHeader (data.length * 2) r
        ++ data.flatMap (fun x => i16le (encodeSample x))).drop 44
      = data.flatMap (fun x => i16le (encodeSample x))
    rw [List.drop_append_of_le_length (by rw [wavHeader_length])]
    rw [show List.drop 44 (wavHeader (data.length * 2) r) = [] from rfl]
    simp

/-- Demo mono samples: in range, clipped above, clipped below, zero. -/
def wavDemoData : List ℚ := [1/2, -1/3, 2, -5, 0]

/-- Witness for C10 on five concrete samples at 16 kHz. -/
theorem audioBufferToWav_spec_witness :
    44 + 2 * wavDemoData.length < 4294967296
    ∧ ((audioBufferToWav wavDemoData 16000).length
        = 44 + 2 * wavDemoData.length
       ∧ readU32le (audioBufferToWav wavDemoData 16000) 4
         = 36 + 2 * wavDemoData.length
       ∧ readU32le (audioBufferToWav wavDemoData 16000) 40
         = 2 * wavDemoData.length
       ∧ (audioBufferToWav wavDemoData 16000).drop 44
         = wavDemoData.flatMap (fun x => i16le (encodeSample x))
       ∧ ∀ x : ℚ, -32768 ≤ encodeSample x ∧ encodeSample x ≤ 32767) :=
  ⟨by decide, audioBufferToWav_spec wavDemoData 16000 (by decide)⟩
